import Mathlib

/-!
Verification development for the Octodet Elasticsearch MCP server
(tool-dispatch and result-normalization layer).

The definitions below are a shallow embedding of the TypeScript source:

* `src/index.ts` — the 16 tool handlers registered on the MCP server
  (argument shapes after zod validation, the try/catch bodies, the bulk
  operation validator/compiler/summarizer, the update-by-query and
  delete-by-query parameter builders and report renderers, and the
  configuration schema's auth refinement);
* `src/utils/elasticsearchService.ts` — the service-layer request
  construction that the claims touch (`addDocument`'s conditional `id`
  field, `bulk`'s unconditional `refresh: true`).

Modelling conventions:

* JavaScript values that a handler never inspects structurally are
  modelled as `Json`; `jsonStringify` is a concrete stand-in for
  `JSON.stringify` (its exact output text is not relied on by any
  theorem).
* A thrown JavaScript error is modelled by its message string, so a
  fallible computation is `Except String α`.  A handler is a total Lean
  function returning `ResponseContent`; its `match` on the `Except`
  result is the source's try/catch, which makes "no exception escapes
  the handler" structural.
* The opaque StoreClient call of a handler is a parameter: either the
  call's outcome (`Except String β`) when the handler passes its
  arguments through unchanged, or a function from the request the
  handler builds to an outcome, when a claim is about that request.
* JavaScript truthiness on optional strings/numbers and the `||` /
  `??` operators are modelled explicitly (`strTruthy`, `jsOrStr`, ...):
  the empty string and `0` are falsy, absent (`undefined`/`null`) is
  falsy.
-/

/-- Model of a JSON / JavaScript object value (documents, queries,
mappings, ... — payloads the handlers pass through or dump).  Numbers are
modelled as `Int`; no claim performs arithmetic on payload numbers. -/
inductive Json where
  | null : Json
  | bool (b : Bool) : Json
  | num (n : Int) : Json
  | str (s : String) : Json
  | arr (elems : List Json) : Json
  | obj (fields : List (String × Json)) : Json
deriving Repr

mutual

/-- Concrete stand-in for `JSON.stringify` (compact form; the pretty
`null, 2` indentation of the source is irrelevant to every claim). -/
def jsonStringify : Json → String
  | Json.null => "null"
  | Json.bool b => if b then "true" else "false"
  | Json.num n => toString n
  | Json.str s => "\x22" ++ s ++ "\x22"
  | Json.arr elems => "[" ++ jsonStringifyList elems ++ "]"
  | Json.obj fields => "\x7b" ++ jsonStringifyFields fields ++ "\x7d"

def jsonStringifyList : List Json → String
  | [] => ""
  | [x] => jsonStringify x
  | x :: xs => jsonStringify x ++ "," ++ jsonStringifyList xs

def jsonStringifyFields : List (String × Json) → String
  | [] => ""
  | [(k, v)] => "\x22" ++ k ++ "\x22:" ++ jsonStringify v
  | (k, v) :: xs => "\x22" ++ k ++ "\x22:" ++ jsonStringify v ++ "," ++ jsonStringifyFields xs

end

/-- JavaScript truthiness of an optional string: absent and `""` are
falsy. -/
def strTruthy : Option String → Bool
  | some s => s ≠ ""
  | none => false

/-- JavaScript truthiness of an optional number: absent and `0` are
falsy. -/
def natTruthy : Option Nat → Bool
  | some n => n ≠ 0
  | none => false

/-- JavaScript `x || d` where `x` is an optional string (absent or empty
string falls back to `d`). -/
def jsOrStr (x : Option String) (d : String) : String :=
  match x with
  | some s => if s = "" then d else s
  | none => d

/-- JavaScript `x || d` where `x` is an optional number (absent or `0`
falls back to `d`). -/
def jsOrNat (x : Option Nat) (d : Nat) : Nat :=
  match x with
  | some n => if n = 0 then d else n
  | none => d

/-- JavaScript template interpolation of an optional string: an absent
value renders as the literal text `undefined`. -/
def interpOptStr : Option String → String
  | some s => s
  | none => "undefined"

/-- One text fragment of a tool result (`{ type: "text", text }`). -/
structure TextContent where
  type : String := "text"
  text : String
deriving DecidableEq, Repr

/-- The uniform response envelope every tool handler returns
(`{ content: [...] }`). -/
structure ResponseContent where
  content : List TextContent
deriving DecidableEq, Repr

/-- The error envelope produced by the catch block shared by 13 of the
16 handlers: a single fragment `Error: <message>`. -/
def errEnvelope (m : String) : ResponseContent :=
  { content := [{ text := "Error: " ++ m }] }

/-- Single-fragment success envelope. -/
def textEnvelope (s : String) : ResponseContent :=
  { content := [{ text := s }] }

/-! ## Configuration validation (`ConfigSchema`) -/

/-- Raw configuration input (`ElasticsearchConfig`): every field as it
arrives from the environment, before validation. -/
structure ConfigInput where
  url : String
  apiKey : Option String := none
  username : Option String := none
  password : Option String := none
  caCert : Option String := none
  version : Option String := none
  sslSkipVerify : Option Bool := none
deriving DecidableEq, Repr

/-- The auth cross-field refinement of `ConfigSchema` (`.refine`), with
`x != null` modelled as `Option.isSome`:
if `apiKey` is provided the config is valid; otherwise if `username` is
provided `password` must be provided; otherwise no auth is valid. -/
def configAuthValid (apiKey username password : Option String) : Bool :=
  if apiKey.isSome then true
  else if username.isSome then password.isSome
  else true

/-- The `version` field transform of `ConfigSchema`:
`["8","9"].includes(val || "") ? val : "8"`. -/
def configVersion (v : Option String) : String :=
  if v.getD "" = "8" ∨ v.getD "" = "9" then v.getD "" else "8"

/-- Full `ConfigSchema.parse` acceptance: trimmed `url` non-empty and
the auth refinement holds. -/
def configAccepted (c : ConfigInput) : Bool :=
  c.url.trim ≠ "" && configAuthValid c.apiKey c.username c.password

/-- The auth acceptance set in the spec's words (used only to compare
with `configAuthValid`): exactly one of apiKey alone, username and
password both present, or none of the three present. -/
def specAuthShapes (apiKey username password : Option String) : Bool :=
  (apiKey.isSome && !username.isSome && !password.isSome)
    || (!apiKey.isSome && username.isSome && password.isSome)
    || (!apiKey.isSome && !username.isSome && !password.isSome)

/-! ## Bulk tool: logical operations, validation, wire compilation -/

/-- The `action` enum of a logical bulk operation. -/
inductive BulkAction where
  | index : BulkAction
  | create : BulkAction
  | update : BulkAction
  | delete : BulkAction
deriving DecidableEq, Repr

/-- The string form of an action, as interpolated into messages and used
as the computed object key of an action-descriptor wire entry. -/
def BulkAction.name : BulkAction → String
  | BulkAction.index => "index"
  | BulkAction.create => "create"
  | BulkAction.update => "update"
  | BulkAction.delete => "delete"

/-- One logical bulk operation after zod validation
(`{action, index, id?, document?}`). -/
structure BulkOp where
  action : BulkAction
  index : String
  id : Option String := none
  document : Option Json := none

/-- The validation message for one operation's body, when the operation
is invalid (the id check precedes the document check, as in the source's
two successive `if`/`throw` statements). -/
def opInvalidMsg (op : BulkOp) : Option String :=
  if (op.action == BulkAction.update || op.action == BulkAction.delete)
      && !strTruthy op.id then
    some "Document ID is required"
  else if (op.action == BulkAction.index || op.action == BulkAction.create
      || op.action == BulkAction.update) && !op.document.isSome then
    some "Document body is required"
  else
    none

/-- The `operations.forEach((op, idx) => { ... throw ... })` validation
loop: the first invalid operation aborts with a message carrying its
1-based position, its action and the missing field. -/
def validateFrom (idx : Nat) : List BulkOp → Except String Unit
  | [] => Except.ok ()
  | op :: rest =>
    match opInvalidMsg op with
    | some fieldMsg =>
      Except.error ("Operation #" ++ toString (idx + 1) ++ " ("
        ++ op.action.name ++ "): " ++ fieldMsg)
    | none => validateFrom (idx + 1) rest

def validateOperations (operations : List BulkOp) : Except String Unit :=
  validateFrom 0 operations

/-- The metadata of an action-descriptor wire entry
(`{_index, _id?}` — `_id` only when `op.id` is truthy). -/
structure ActionMeta where
  _index : String
  _id : Option String
deriving Repr

/-- One entry of the wire sequence sent to the store's bulk API: an
action descriptor `{[action]: meta}`, a raw document payload
(index/create — absent document possible only for invalid input), or an
update payload `{doc: document}`. -/
inductive WireEntry where
  | action (a : BulkAction) (meta : ActionMeta) : WireEntry
  | payload (document : Option Json) : WireEntry
  | docWrap (document : Option Json) : WireEntry

/-- The wire entries one logical operation expands to: its action
descriptor, followed for non-delete actions by one payload entry. -/
def opWireEntries (op : BulkOp) : List WireEntry :=
  let actionMeta : ActionMeta :=
    { _index := op.index, _id := if strTruthy op.id then op.id else none }
  WireEntry.action op.action actionMeta ::
    (if op.action != BulkAction.delete then
      (if op.action == BulkAction.update then [WireEntry.docWrap op.document]
        else [WireEntry.payload op.document])
    else [])

/-- The `operations.forEach((op) => { bulkOperations.push(...) })` loop
building the flat wire sequence. -/
def compileBulk (operations : List BulkOp) : List WireEntry :=
  operations.foldl (fun acc op => acc ++ opWireEntries op) []

/-- The service-layer bulk request (`ElasticsearchService.bulk`):
`client.bulk({ refresh: true, pipeline, operations })`. -/
structure BulkWireRequest where
  refresh : Bool
  pipeline : Option String
  operations : List WireEntry

def esBulkRequest (operations : List WireEntry) (pipeline : Option String) :
    BulkWireRequest :=
  { refresh := true, pipeline := pipeline, operations := operations }

/-! ## Bulk tool: response summarization and report -/

/-- The `error` object of a failed per-action result in the store's bulk
response; its `type` and `reason` may each be absent. -/
structure BulkRespError where
  type : Option String := none
  reason : Option String := none

/-- The per-action result object inside one item of the store's bulk
response (`items[i][action]`): every field may be absent.  An object in
the `error` field is always truthy, so `if (result.error)` is
`error.isSome`. -/
structure BulkItemResult where
  _id : Option String := none
  _index : Option String := none
  status : Option Nat := none
  error : Option BulkRespError := none
  result : Option String := none

/-- One item of the store's bulk response: a JavaScript object whose
keys map to a result object or to `null` (`none` models a null or
undefined value at the key). -/
def BulkItem := List (String × Option BulkItemResult)

/-- `Object.keys(item)[0]` together with `item[actionType]`: the first
key and its value; for an empty object the key is `undefined` and the
lookup gives `undefined`. -/
def headKV : BulkItem → String × Option BulkItemResult
  | [] => ("undefined", none)
  | (k, v) :: _ => (k, v)

/-- The defaulted error part of a failure record
(`{type: result.error?.type || "unknown_error", reason: ... || "Unknown error"}`). -/
structure BulkErrorInfo where
  type : String
  reason : String
deriving DecidableEq, Repr

/-- One entry of `summary.actionResults`: either a failure record
(`error` present) or a success record (`result` present). -/
structure BulkActionRecord where
  operation : Nat
  action : String
  id : String
  index : String
  status : Nat
  error : Option BulkErrorInfo := none
  result : Option String := none
deriving DecidableEq, Repr

/-- The mutable `summary` object of the bulk handler (the `took` and
`errors` fields are copied from the response unchanged). -/
structure BulkSummaryAcc where
  successes : Nat
  failures : Nat
  actionResults : List BulkActionRecord
deriving DecidableEq, Repr

/-- The failure record pushed for an item whose result carries an
`error` marker. -/
def bulkFailureRecord (idx : Nat) (actionType : String) (r : BulkItemResult) :
    BulkActionRecord :=
  { operation := idx
    action := actionType
    id := jsOrStr r._id "unknown"
    index := jsOrStr r._index "unknown"
    status := jsOrNat r.status 0
    error := some
      { type := jsOrStr (r.error.bind BulkRespError.type) "unknown_error"
        reason := jsOrStr (r.error.bind BulkRespError.reason) "Unknown error" } }

/-- The success record pushed for an item without an error marker. -/
def bulkSuccessRecord (idx : Nat) (actionType : String) (r : BulkItemResult) :
    BulkActionRecord :=
  { operation := idx
    action := actionType
    id := jsOrStr r._id "unknown"
    index := jsOrStr r._index "unknown"
    status := jsOrNat r.status 0
    result := some (jsOrStr r.result "unknown") }

/-- The `response.items.forEach((item, idx) => {...})` summarization
loop: items whose single action key maps to a null/undefined result are
skipped (`if (!result) return`), error-marked results count as failures,
all others as successes. -/
def summarizeItems (idx : Nat) : List BulkItem → BulkSummaryAcc
  | [] => { successes := 0, failures := 0, actionResults := [] }
  | item :: rest =>
    let acc := summarizeItems (idx + 1) rest
    match headKV item with
    | (_, none) => acc
    | (actionType, some r) =>
      if r.error.isSome then
        { successes := acc.successes
          failures := acc.failures + 1
          actionResults := bulkFailureRecord idx actionType r :: acc.actionResults }
      else
        { successes := acc.successes + 1
          failures := acc.failures
          actionResults := bulkSuccessRecord idx actionType r :: acc.actionResults }

/-- The store's bulk response. -/
structure BulkResponse where
  took : Nat
  errors : Bool
  items : List BulkItem

/-- One rendered bulk failure line
(`${idx + 1}. Operation #${failure.operation} (${failure.action}): ${reason} [${type}]\n`).
The `error` field is present on every record the failure filter keeps. -/
def bulkFailureLine (idx : Nat) (r : BulkActionRecord) : String :=
  toString (idx + 1) ++ ". Operation #" ++ toString r.operation ++ " ("
    ++ r.action ++ "): "
    ++ (match r.error with
        | some e => e.reason ++ " [" ++ e.type ++ "]"
        | none => "undefined [undefined]") ++ "\n"

/-- The bulk failure block: header line, the first five failures, and an
overflow line when more than five failed. -/
def bulkFailureSection (failures : List BulkActionRecord) : String :=
  let afterLines := ((failures.take 5).enum).foldl
    (fun acc p => acc ++ bulkFailureLine p.1 p.2) "\nFailures:\n"
  if failures.length > 5 then
    afterLines ++ "...and " ++ toString (failures.length - 5) ++ " more failures.\n"
  else afterLines

/-- The bulk report text built from the operation list and the store
response. -/
def formatBulkResponse (operations : List BulkOp) (response : BulkResponse) :
    String :=
  let summary := summarizeItems 0 response.items
  let resultText := "Bulk operation completed in " ++ toString response.took ++ "ms\n"
    ++ "- Total operations: " ++ toString operations.length ++ "\n"
    ++ "- Successful: " ++ toString summary.successes ++ "\n"
    ++ "- Failed: " ++ toString summary.failures ++ "\n"
  if summary.failures > 0 then
    resultText ++ bulkFailureSection (summary.actionResults.filter
      (fun r => r.error.isSome))
  else resultText

/-- The try block of the bulk handler: validate, compile, call the
store through the service layer, summarize and format. -/
def bulkHandlerCore (operations : List BulkOp) (pipeline : Option String)
    (store : BulkWireRequest → Except String BulkResponse) :
    Except String ResponseContent := do
  let _ ← validateOperations operations
  let bulkOperations := compileBulk operations
  let response ← store (esBulkRequest bulkOperations pipeline)
  pure (textEnvelope (formatBulkResponse operations response))

/-- Tool 11 `bulk`: the try/catch boundary wrapping the core. -/
def bulk_handler (operations : List BulkOp) (pipeline : Option String)
    (store : BulkWireRequest → Except String BulkResponse) : ResponseContent :=
  match bulkHandlerCore operations pipeline store with
  | Except.ok r => r
  | Except.error m => errEnvelope m

/-! ## Query-scoped mutations: update_by_query and delete_by_query -/

/-- The `script` argument of update_by_query after zod validation
(`{source, params?}`). -/
structure UbqScript where
  source : String
  params : Option Json := none

/-- The zod `.optional().default(true)` parse of the caller's `refresh`
argument: an omitted argument becomes `true`. -/
def zodDefaultTrue (arg : Option Bool) : Bool :=
  arg.getD true

/-- The nested `body.script` of the update-by-query wire params. -/
structure UbqBodyScript where
  source : String
  params : Option Json
deriving Repr

/-- The nested `body` of the update-by-query wire params. -/
structure UbqBody where
  query : Json
  script : UbqBodyScript

/-- The wire params object passed to `esService.updateByQuery`. -/
structure UpdateByQueryParams where
  index : String
  body : UbqBody
  refresh : Bool
  conflicts : Option String
  max_docs : Option Nat

/-- The params object built by the update_by_query handler:
`refresh: refresh !== false`, `conflicts`/`max_docs` only when truthy. -/
def buildUpdateByQueryParams (index : String) (query : Json)
    (script : UbqScript) (conflicts : Option String) (maxDocs : Option Nat)
    (refresh : Bool) : UpdateByQueryParams :=
  { index := index
    body := { query := query
              script := { source := script.source, params := script.params } }
    refresh := refresh != false
    conflicts := if strTruthy conflicts then conflicts else none
    max_docs := if natTruthy maxDocs then maxDocs else none }

/-- The nested `body` of the delete-by-query wire params. -/
structure DbqBody where
  query : Json

/-- The wire params object passed to `esService.deleteByQuery`. -/
structure DeleteByQueryParams where
  index : String
  body : DbqBody
  refresh : Bool
  conflicts : Option String
  max_docs : Option Nat

/-- The params object built by the delete_by_query handler. -/
def buildDeleteByQueryParams (index : String) (query : Json)
    (conflicts : Option String) (maxDocs : Option Nat) (refresh : Bool) :
    DeleteByQueryParams :=
  { index := index
    body := { query := query }
    refresh := refresh != false
    conflicts := if strTruthy conflicts then conflicts else none
    max_docs := if natTruthy maxDocs then maxDocs else none }

/-- The `cause` object of a by-query failure (`{type?, reason?}`). -/
structure FailureCause where
  type : Option String := none
  reason : Option String := none

/-- One entry of a by-query response's `failures` array: `id` and
`cause` may each be absent. -/
structure QueryFailure where
  id : Option String := none
  cause : Option FailureCause := none

/-- The update-by-query / delete-by-query store response
(`{took, total, updated | deleted, failures?, version_conflicts?}`). -/
structure ByQueryResponse where
  took : Nat
  total : Nat
  affected : Nat
  failures : Option (List QueryFailure) := none
  version_conflicts : Option Nat := none

/-- `response.failures?.length || 0`. -/
def failuresCount (failures : Option (List QueryFailure)) : Nat :=
  match failures with
  | some fs => fs.length
  | none => 0

/-- One update_by_query failure line
(`\n${index + 1}. ID: ${failure.id}, Reason: ${failure.cause?.reason || "Unknown"}` —
note the id is interpolated raw, with no `|| "unknown"` fallback). -/
def ubqFailureLine (idx : Nat) (f : QueryFailure) : String :=
  "\n" ++ toString (idx + 1) ++ ". ID: " ++ interpOptStr f.id
    ++ ", Reason: " ++ jsOrStr (f.cause.bind FailureCause.reason) "Unknown"

/-- One delete_by_query failure line
(`\n${idx + 1}. ID: ${failure.id || "unknown"}, Reason: ${failure.cause?.reason || "Unknown"}`). -/
def dbqFailureLine (idx : Nat) (f : QueryFailure) : String :=
  "\n" ++ toString (idx + 1) ++ ". ID: " ++ jsOrStr f.id "unknown"
    ++ ", Reason: " ++ jsOrStr (f.cause.bind FailureCause.reason) "Unknown"

/-- The update_by_query failure block: header, first five failure lines,
overflow line beyond five. -/
def ubqFailureSection (failures : List QueryFailure) : String :=
  let afterLines := ((failures.take 5).enum).foldl
    (fun acc p => acc ++ ubqFailureLine p.1 p.2) "\n\nFailures:"
  if failures.length > 5 then
    afterLines ++ "\n...and " ++ toString (failures.length - 5) ++ " more failures."
  else afterLines

/-- The delete_by_query failure block. -/
def dbqFailureSection (failures : List QueryFailure) : String :=
  let afterLines := ((failures.take 5).enum).foldl
    (fun acc p => acc ++ dbqFailureLine p.1 p.2) "\n\nFailures:"
  if failures.length > 5 then
    afterLines ++ "\n...and " ++ toString (failures.length - 5) ++ " more failures."
  else afterLines

/-- The update_by_query success report text. -/
def ubqSuccessText (index : String) (response : ByQueryResponse) : String :=
  let resultText := "Update by query completed successfully in index '" ++ index ++ "':\n"
    ++ "- Total documents processed: " ++ toString response.total ++ "\n"
    ++ "- Documents updated: " ++ toString response.affected ++ "\n"
    ++ "- Documents that failed: " ++ toString (failuresCount response.failures) ++ "\n"
    ++ "- Time taken: " ++ toString response.took ++ "ms"
  match response.failures with
  | some fs => if fs.length > 0 then resultText ++ ubqFailureSection fs else resultText
  | none => resultText

/-- `response.version_conflicts && response.version_conflicts > 0`. -/
def versionConflictsShown (vc : Option Nat) : Bool :=
  natTruthy vc && 0 < vc.getD 0

/-- The delete_by_query success report text (version-conflict line
before the failure block). -/
def dbqSuccessText (index : String) (response : ByQueryResponse) : String :=
  let resultText := "Delete by query completed successfully in index '" ++ index ++ "':\n"
    ++ "- Total documents processed: " ++ toString response.total ++ "\n"
    ++ "- Documents deleted: " ++ toString response.affected ++ "\n"
    ++ "- Deletion failures: " ++ toString (failuresCount response.failures) ++ "\n"
    ++ "- Time taken: " ++ toString response.took ++ "ms"
  let resultText := if versionConflictsShown response.version_conflicts then
      resultText ++ "\n- Version conflicts: " ++ toString (response.version_conflicts.getD 0)
    else resultText
  match response.failures with
  | some fs => if fs.length > 0 then resultText ++ dbqFailureSection fs else resultText
  | none => resultText

/-- Tool 9 `update_by_query`: build wire params, call the store, format
the report; the catch wraps any failure as `Error: <message>`. -/
def update_by_query_handler (index : String) (query : Json)
    (script : UbqScript) (conflicts : Option String) (maxDocs : Option Nat)
    (refresh : Bool)
    (store : UpdateByQueryParams → Except String ByQueryResponse) :
    ResponseContent :=
  match (do
      let params := buildUpdateByQueryParams index query script conflicts maxDocs refresh
      let response ← store params
      pure (textEnvelope (ubqSuccessText index response)) :
      Except String ResponseContent) with
  | Except.ok r => r
  | Except.error m => errEnvelope m

/-- Tool 10 `delete_by_query`. -/
def delete_by_query_handler (index : String) (query : Json)
    (conflicts : Option String) (maxDocs : Option Nat) (refresh : Bool)
    (store : DeleteByQueryParams → Except String ByQueryResponse) :
    ResponseContent :=
  match (do
      let params := buildDeleteByQueryParams index query conflicts maxDocs refresh
      let response ← store params
      pure (textEnvelope (dbqSuccessText index response)) :
      Except String ResponseContent) with
  | Except.ok r => r
  | Except.error m => errEnvelope m

/-! ## Search tool -/

/-- `hits.total`: either a plain number or `{value, relation}`. -/
inductive SearchTotal where
  | num (n : Int) : SearchTotal
  | obj (value : Int) (relation : String) : SearchTotal

/-- One search hit: id, score, optional `_source` object, optional
`highlight` map from field name to highlighted snippets. -/
structure SearchHit where
  _id : String
  _score : Int
  _source : Option (List (String × Json)) := none
  highlight : Option (List (String × List String)) := none

/-- The search response as the handler consumes it. -/
structure SearchResult where
  total : Option SearchTotal
  hits : List SearchHit
  aggregations : Option Json := none

/-- `typeof result.hits.total === "number" ? result.hits.total :
result.hits.total?.value ?? 0`. -/
def searchTotalText (total : Option SearchTotal) : String :=
  match total with
  | some (SearchTotal.num n) => toString n
  | some (SearchTotal.obj value _) => toString value
  | none => "0"

/-- `queryBody.from ?? 0`, interpolated into the summary line: the
`from` key's value when present and non-null, else `0`.  Interpolation
of a non-numeric JSON value is modelled concretely (its exact text is
irrelevant to every claim). -/
def searchFromText (queryBody : List (String × Json)) : String :=
  match (queryBody.lookup "from").getD Json.null with
  | Json.null => "0"
  | Json.num n => toString n
  | Json.bool b => if b then "true" else "false"
  | Json.str s => s
  | v => jsonStringify v

/-- Key membership test (`field in highlightedFields`). -/
def hasKey (fields : List (String × List String)) (key : String) : Bool :=
  fields.any (fun kv => kv.1 == key)

/-- The per-hit fragment text: header, highlighted fields joined with
`" ... "`, then source fields not present among the highlights, finally
trimmed. -/
def searchHitText (hit : SearchHit) : String :=
  let highlightedFields := hit.highlight.getD []
  let sourceData := hit._source.getD []
  let content := "Document ID: " ++ hit._id ++ "\nScore: " ++ toString hit._score ++ "\n\n"
  let content := highlightedFields.foldl
    (fun acc kv =>
      if kv.2.length > 0 then
        acc ++ kv.1 ++ " (highlighted): " ++ String.intercalate " ... " kv.2 ++ "\n"
      else acc) content
  let content := sourceData.foldl
    (fun acc kv =>
      if !hasKey highlightedFields kv.1 then
        acc ++ kv.1 ++ ": " ++ jsonStringify kv.2 ++ "\n"
      else acc) content
  content.trim

/-- Tool 3 `search`: summary fragment, optional aggregations fragment,
one fragment per hit. -/
def search_handler (index : String) (queryBody : List (String × Json))
    (store : Except String SearchResult) : ResponseContent :=
  match store with
  | Except.ok result =>
    let metaFragment : TextContent :=
      { text := "Total results: " ++ searchTotalText result.total
          ++ ", showing " ++ toString result.hits.length
          ++ " from position " ++ searchFromText queryBody }
    let aggFragments : List TextContent :=
      match result.aggregations with
      | some aggs => [{ text := "Aggregations: " ++ jsonStringify aggs }]
      | none => []
    let hitFragments := result.hits.map (fun hit =>
      ({ text := searchHitText hit } : TextContent))
    { content := metaFragment :: aggFragments ++ hitFragments }
  | Except.error m => errEnvelope m

/-! ## Document CRUD and administration tools -/

/-- The request `ElasticsearchService.addDocument` sends
(`{index, document}`, with `id` added only when truthy). -/
structure IndexRequest where
  index : String
  document : Json
  id : Option String

/-- `const params = { index, document }; if (id) params.id = id`. -/
def addDocumentParams (index : String) (document : Json) (id : Option String) :
    IndexRequest :=
  { index := index
    document := document
    id := if strTruthy id then id else none }

/-- The store's index response (`response._id`). -/
structure IndexResponse where
  _id : String

/-- Tool 6 `add_document`: its catch prefix is
`Error adding document: `, not the shared `Error: `. -/
def add_document_handler (index : String) (id : Option String) (document : Json)
    (store : IndexRequest → Except String IndexResponse) : ResponseContent :=
  match store (addDocumentParams index document id) with
  | Except.ok response =>
    textEnvelope ("Document added to index '" ++ index ++ "' with ID: " ++ response._id)
  | Except.error m =>
    { content := [{ text := "Error adding document: " ++ m }] }

/-- Tool 7 `update_document`: catch prefix `Error updating document: `. -/
def update_document_handler (index : String) (id : String) (document : Json)
    (store : Except String Json) : ResponseContent :=
  match store with
  | Except.ok _ =>
    textEnvelope ("Document with ID '" ++ id ++ "' updated in index '" ++ index ++ "'.")
  | Except.error m =>
    { content := [{ text := "Error updating document: " ++ m }] }

/-- Tool 8 `delete_document`: catch prefix `Error deleting document: `. -/
def delete_document_handler (index : String) (id : String)
    (store : Except String Json) : ResponseContent :=
  match store with
  | Except.ok _ =>
    textEnvelope ("Document with ID '" ++ id ++ "' deleted from index '" ++ index ++ "'.")
  | Except.error m =>
    { content := [{ text := "Error deleting document: " ++ m }] }

/-- Tool 1 `list_indices`: the store outcome is the mapped per-index
info list (modelled as opaque objects; the handler uses only its length
and its dump). -/
def list_indices_handler (indexPattern : String)
    (store : Except String (List Json)) : ResponseContent :=
  match store with
  | Except.ok indicesInfo =>
    { content :=
        [ { text := "Found " ++ toString indicesInfo.length
              ++ " indices matching pattern '" ++ indexPattern ++ "'" }
        , { text := jsonStringify (Json.arr indicesInfo) } ] }
  | Except.error m => errEnvelope m

/-- Tool 2 `get_mappings`. -/
def get_mappings_handler (index : String) (store : Except String Json) :
    ResponseContent :=
  match store with
  | Except.ok mappings =>
    { content :=
        [ { text := "Mappings for index: " ++ index }
        , { text := jsonStringify mappings } ] }
  | Except.error m => errEnvelope m

/-- Tool 4 `get_cluster_health`. -/
def get_cluster_health_handler (store : Except String Json) : ResponseContent :=
  match store with
  | Except.ok health =>
    { content :=
        [ { text := "Elasticsearch Cluster Health:" }
        , { text := jsonStringify health } ] }
  | Except.error m => errEnvelope m

/-- Tool 5 `get_shards` (`index ? ` for index ${index}` : ""` on an
optional argument). -/
def get_shards_handler (index : Option String)
    (store : Except String (List Json)) : ResponseContent :=
  match store with
  | Except.ok shardsInfo =>
    { content :=
        [ { text := "Found " ++ toString shardsInfo.length ++ " shards"
              ++ (if strTruthy index then " for index " ++ index.getD "" else "") }
        , { text := jsonStringify (Json.arr shardsInfo) } ] }
  | Except.error m => errEnvelope m

/-- Tool 12 `create_index`. -/
def create_index_handler (index : String) (settings mappings : Option Json)
    (store : Except String Json) : ResponseContent :=
  match store with
  | Except.ok _ => textEnvelope ("Index '" ++ index ++ "' created successfully.")
  | Except.error m => errEnvelope m

/-- Tool 13 `delete_index`. -/
def delete_index_handler (index : String) (store : Except String Json) :
    ResponseContent :=
  match store with
  | Except.ok _ =>
    { content := [{ text := "Index '" ++ index ++ "' deleted successfully." }] }
  | Except.error m => errEnvelope m

/-- Tool 14 `count_documents` (`query ? " matching the provided query" : ""`;
a query object is always truthy when present). -/
def count_documents_handler (index : String) (query : Option Json)
    (store : Except String Nat) : ResponseContent :=
  match store with
  | Except.ok count =>
    textEnvelope ("Count of documents in index '" ++ index ++ "'"
      ++ (if query.isSome then " matching the provided query" else "")
      ++ ": " ++ toString count)
  | Except.error m => errEnvelope m

/-- Tool 15 `get_templates`. -/
def get_templates_handler (name : Option String) (store : Except String Json) :
    ResponseContent :=
  match store with
  | Except.ok templates =>
    { content :=
        [ { text := "Index Templates:" }
        , { text := jsonStringify templates } ] }
  | Except.error m => errEnvelope m

/-- Tool 16 `get_aliases`. -/
def get_aliases_handler (name : Option String) (store : Except String Json) :
    ResponseContent :=
  match store with
  | Except.ok aliases =>
    { content :=
        [ { text := "Index Aliases:" }
        , { text := jsonStringify aliases } ] }
  | Except.error m => errEnvelope m

/-! ## Helper lemmas -/

/-- Concatenation of a list of strings (used to state what the
imperative `resultText += ...` loops produce). -/
def concatStrs : List String → String
  | [] => ""
  | s :: rest => s ++ concatStrs rest

theorem foldl_append_concat {α : Type} (g : α → String) :
    ∀ (l : List α) (init : String),
      l.foldl (fun acc x => acc ++ g x) init = init ++ concatStrs (l.map g)
  | [], init => by simp [concatStrs, String.append_empty]
  | x :: xs, init => by
    simp only [List.foldl_cons, List.map_cons, concatStrs]
    rw [foldl_append_concat g xs (init ++ g x), String.append_assoc]

theorem foldl_append_flat {α β : Type} (g : α → List β) :
    ∀ (l : List α) (init : List β),
      l.foldl (fun acc x => acc ++ g x) init = init ++ l.flatMap g
  | [], init => by simp
  | x :: xs, init => by
    simp only [List.foldl_cons, List.flatMap_cons]
    rw [foldl_append_flat g xs (init ++ g x), List.append_assoc]

/-! ## Claims -/

/-- C2 counterexample: the refinement accepts a configuration whose only
auth field is `password` (the source checks `username ⇒ password` but
never `password ⇒ username`), while the claimed three-shape rule rejects
it. -/
theorem C2_auth_validator_counterexample :
    configAuthValid none none (some "secret") = true
    ∧ specAuthShapes none none (some "secret") = false := by
  exact ⟨rfl, rfl⟩

/-- C2 (amended): the auth refinement rejects exactly the configurations
with `username` present, `password` absent and `apiKey` absent; every
other combination — password alone and apiKey combined with partial
basic credentials included — is accepted. -/
theorem C2_auth_validator_amended :
    ∀ (apiKey username password : Option String),
      configAuthValid apiKey username password = false
        ↔ (apiKey = none ∧ username.isSome ∧ password = none) := by
  intro a u p
  cases a <;> cases u <;> cases p <;> simp [configAuthValid]

/-- C7: the wire `refresh` of update_by_query and delete_by_query is a
tri-state function of the caller's argument: omitted ⇒ true (zod
default), explicit false ⇒ false, explicit true ⇒ true. -/
theorem C7_refresh_tristate :
    ∀ (index : String) (query : Json) (script : UbqScript)
      (conflicts : Option String) (maxDocs : Option Nat),
      (buildUpdateByQueryParams index query script conflicts maxDocs
          (zodDefaultTrue none)).refresh = true
      ∧ (buildUpdateByQueryParams index query script conflicts maxDocs
          (zodDefaultTrue (some false))).refresh = false
      ∧ (buildUpdateByQueryParams index query script conflicts maxDocs
          (zodDefaultTrue (some true))).refresh = true
      ∧ (buildDeleteByQueryParams index query conflicts maxDocs
          (zodDefaultTrue none)).refresh = true
      ∧ (buildDeleteByQueryParams index query conflicts maxDocs
          (zodDefaultTrue (some false))).refresh = false
      ∧ (buildDeleteByQueryParams index query conflicts maxDocs
          (zodDefaultTrue (some true))).refresh = true := by
  intro _ _ _ _ _
  exact ⟨rfl, rfl, rfl, rfl, rfl, rfl⟩

/-- C9: the service-layer bulk request always carries `refresh: true`
(in particular for the request the bulk handler builds — the bulk tool
has no refresh argument), while the update/delete-by-query wire refresh
equals the caller's tri-state choice and so is caller-controllable. -/
theorem C9_bulk_forced_refresh :
    ∀ (wire : List WireEntry) (pipeline : Option String)
      (operations : List BulkOp) (index : String) (query : Json)
      (script : UbqScript) (conflicts : Option String) (maxDocs : Option Nat)
      (r : Option Bool),
      (esBulkRequest wire pipeline).refresh = true
      ∧ (esBulkRequest (compileBulk operations) pipeline).refresh = true
      ∧ (buildUpdateByQueryParams index query script conflicts maxDocs
          (zodDefaultTrue r)).refresh = (r != some false)
      ∧ (buildDeleteByQueryParams index query conflicts maxDocs
          (zodDefaultTrue r)).refresh = (r != some false) := by
  intro _ _ _ _ _ _ _ _ r
  refine ⟨rfl, rfl, ?_, ?_⟩ <;>
    (cases r with
     | none => rfl
     | some b => cases b <;> rfl)

/-- C10: an empty-string document id is treated exactly as an absent id —
omitted from the `addDocument` index request (the store assigns the id)
and omitted from a bulk action-descriptor's `_id` — while a non-empty id
is passed through unchanged. -/
theorem C10_empty_id_omitted :
    ∀ (index : String) (document : Json) (action : BulkAction)
      (docField : Option Json) (s : String),
      addDocumentParams index document (some "") = addDocumentParams index document none
      ∧ (addDocumentParams index document (some "")).id = none
      ∧ opWireEntries { action := action, index := index, id := some "", document := docField }
          = opWireEntries { action := action, index := index, id := none, document := docField }
      ∧ (s ≠ "" → (addDocumentParams index document (some s)).id = some s) := by
  intro index document action docField s
  refine ⟨by simp [addDocumentParams, strTruthy], by simp [addDocumentParams, strTruthy],
    by simp [opWireEntries, strTruthy], fun h => by simp [addDocumentParams, strTruthy, h]⟩

theorem C10_empty_id_omitted_witness :
    ("doc1" : String) ≠ ""
    ∧ (addDocumentParams "products" (Json.obj []) (some "doc1")).id = some "doc1" :=
  ⟨by decide,
    (C10_empty_id_omitted "products" (Json.obj []) BulkAction.index none "doc1").2.2.2
      (by decide)⟩

theorem opWireEntries_length (op : BulkOp) :
    (opWireEntries op).length = if op.action = BulkAction.delete then 1 else 2 := by
  by_cases h : op.action = BulkAction.delete
  · simp [opWireEntries, h]
  · by_cases h2 : op.action = BulkAction.update
    · simp [opWireEntries, h, h2]
    · simp [opWireEntries, h, h2]

theorem flatMap_opWire_length : ∀ (ops : List BulkOp),
    (ops.flatMap opWireEntries).length =
      2 * (ops.filter (fun op => op.action != BulkAction.delete)).length
        + (ops.filter (fun op => op.action == BulkAction.delete)).length
  | [] => rfl
  | op :: ops => by
    rw [List.flatMap_cons, List.length_append, flatMap_opWire_length ops,
      opWireEntries_length]
    by_cases h : op.action = BulkAction.delete
    · simp only [List.filter_cons, h]
      simp
      omega
    · simp only [List.filter_cons, h]
      simp [h]
      omega

/-- C4: wire compilation is the order-preserving per-operation expansion
(one action descriptor, then one payload entry for non-delete actions),
so its length is twice the non-delete count plus the delete count. -/
theorem C4_bulk_compile_shape :
    ∀ (operations : List BulkOp),
      compileBulk operations = operations.flatMap opWireEntries
      ∧ (compileBulk operations).length =
          2 * (operations.filter (fun op => op.action != BulkAction.delete)).length
            + (operations.filter (fun op => op.action == BulkAction.delete)).length := by
  intro operations
  have hflat : compileBulk operations = operations.flatMap opWireEntries := by
    simpa using foldl_append_flat opWireEntries operations []
  exact ⟨hflat, by rw [hflat, flatMap_opWire_length]⟩

theorem foldl_append_line {α : Type} (line : Nat → α → String) :
    ∀ (l : List (Nat × α)) (init : String),
      l.foldl (fun acc p => acc ++ line p.1 p.2) init
        = init ++ concatStrs (l.map (fun p => line p.1 p.2))
  | [], init => by simp [concatStrs, String.append_empty]
  | x :: xs, init => by
    simp only [List.foldl_cons, List.map_cons, concatStrs]
    rw [foldl_append_line line xs (init ++ line x.1 x.2), String.append_assoc]

/-- C5: each of the three failure-report renderers (bulk,
update_by_query, delete_by_query) shows the first five failures in
original order, appends exactly one `...and N more failures` line
stating `count - 5` when the failure count exceeds five, and no overflow
line otherwise (when the count is at most five, the five-element prefix
is the whole list). -/
theorem C5_failure_truncation :
    ∀ (ufs dfs : List QueryFailure) (bfs : List BulkActionRecord),
      ubqFailureSection ufs
        = "\n\nFailures:"
          ++ concatStrs ((ufs.take 5).enum.map (fun p => ubqFailureLine p.1 p.2))
          ++ (if ufs.length > 5 then
                "\n...and " ++ toString (ufs.length - 5) ++ " more failures."
              else "")
      ∧ dbqFailureSection dfs
          = "\n\nFailures:"
            ++ concatStrs ((dfs.take 5).enum.map (fun p => dbqFailureLine p.1 p.2))
            ++ (if dfs.length > 5 then
                  "\n...and " ++ toString (dfs.length - 5) ++ " more failures."
                else "")
      ∧ bulkFailureSection bfs
          = "\nFailures:\n"
            ++ concatStrs ((bfs.take 5).enum.map (fun p => bulkFailureLine p.1 p.2))
            ++ (if bfs.length > 5 then
                  "...and " ++ toString (bfs.length - 5) ++ " more failures.\n"
                else "")
      ∧ (if ufs.length > 5 then (ufs.take 5).length = 5 else ufs.take 5 = ufs)
      ∧ (if dfs.length > 5 then (dfs.take 5).length = 5 else dfs.take 5 = dfs)
      ∧ (if bfs.length > 5 then (bfs.take 5).length = 5 else bfs.take 5 = bfs) := by
  intro ufs dfs bfs
  refine ⟨?_, ?_, ?_, ?_, ?_, ?_⟩
  · simp only [ubqFailureSection]
    rw [foldl_append_line ubqFailureLine]
    by_cases hl : ufs.length > 5
    · simp only [if_pos hl, String.append_assoc]
    · simp only [if_neg hl, String.append_empty]
  · simp only [dbqFailureSection]
    rw [foldl_append_line dbqFailureLine]
    by_cases hl : dfs.length > 5
    · simp only [if_pos hl, String.append_assoc]
    · simp only [if_neg hl, String.append_empty]
  · simp only [bulkFailureSection]
    rw [foldl_append_line bulkFailureLine]
    by_cases hl : bfs.length > 5
    · simp only [if_pos hl, String.append_assoc]
    · simp only [if_neg hl, String.append_empty]
  · by_cases hl : ufs.length > 5
    · simp only [if_pos hl, List.length_take]
      omega
    · rw [if_neg hl]
      exact List.take_of_length_le (by omega)
  · by_cases hl : dfs.length > 5
    · simp only [if_pos hl, List.length_take]
      omega
    · rw [if_neg hl]
      exact List.take_of_length_le (by omega)
  · by_cases hl : bfs.length > 5
    · simp only [if_pos hl, List.length_take]
      omega
    · rw [if_neg hl]
      exact List.take_of_length_le (by omega)

theorem validateFrom_first_invalid (op : BulkOp) (fieldMsg : String)
    (post : List BulkOp) (h : opInvalidMsg op = some fieldMsg) :
    ∀ (pre : List BulkOp) (n : Nat), (∀ o ∈ pre, opInvalidMsg o = none) →
      validateFrom n (pre ++ op :: post)
        = Except.error ("Operation #" ++ toString (n + pre.length + 1) ++ " ("
            ++ op.action.name ++ "): " ++ fieldMsg)
  | [], n, _ => by simp [validateFrom, h]
  | o :: pre, n, hpre => by
    have ho : opInvalidMsg o = none := hpre o (by simp)
    have hrest : ∀ x ∈ pre, opInvalidMsg x = none := fun x hx => hpre x (by simp [hx])
    simp only [List.cons_append, validateFrom, ho, List.append_eq]
    rw [validateFrom_first_invalid op fieldMsg post h pre (n + 1) hrest]
    have harith : n + 1 + pre.length + 1 = n + (o :: pre).length + 1 := by
      simp only [List.length_cons]
      omega
    rw [harith]

/-- C6: a bulk invocation whose operation list contains an invalid
operation is answered, for every possible store behaviour, by the
validation error of the first invalid operation, naming its 1-based
position, its action and the specific missing field; no store call
influences the result. -/
theorem C6_bulk_fail_fast :
    ∀ (pre post : List BulkOp) (op : BulkOp) (fieldMsg : String)
      (pipeline : Option String)
      (store : BulkWireRequest → Except String BulkResponse),
      (∀ o ∈ pre, opInvalidMsg o = none) → opInvalidMsg op = some fieldMsg →
      bulk_handler (pre ++ op :: post) pipeline store
        = errEnvelope ("Operation #" ++ toString (pre.length + 1) ++ " ("
            ++ op.action.name ++ "): " ++ fieldMsg) := by
  intro pre post op fieldMsg pipeline store hpre hop
  have hv := validateFrom_first_invalid op fieldMsg post hop pre 0 hpre
  simp only [Nat.zero_add] at hv
  simp [bulk_handler, bulkHandlerCore, validateOperations, hv, Bind.bind, Except.bind]

theorem C6_bulk_fail_fast_witness :
    (∀ o ∈ ([] : List BulkOp), opInvalidMsg o = none)
    ∧ opInvalidMsg { action := BulkAction.delete, index := "a" } = some "Document ID is required"
    ∧ bulk_handler [{ action := BulkAction.delete, index := "a" }] none
        (fun _ => Except.ok { took := 0, errors := false, items := [] })
        = errEnvelope "Operation #1 (delete): Document ID is required" := by
  refine ⟨by simp, rfl, ?_⟩
  exact C6_bulk_fail_fast [] [] { action := BulkAction.delete, index := "a" }
    "Document ID is required" none
    (fun _ => Except.ok { took := 0, errors := false, items := [] })
    (by simp) rfl

theorem summarize_spec : ∀ (items : List BulkItem) (idx : Nat),
    (summarizeItems idx items).actionResults.length
        = (items.filter (fun it => (headKV it).2.isSome)).length
    ∧ (summarizeItems idx items).successes + (summarizeItems idx items).failures
        = (items.filter (fun it => (headKV it).2.isSome)).length
    ∧ (summarizeItems idx items).actionResults.map BulkActionRecord.operation
        = ((items.enumFrom idx).filter (fun p => (headKV p.2).2.isSome)).map Prod.fst
  | [], idx => by simp [summarizeItems]
  | item :: rest, idx => by
    obtain ⟨ih1, ih2, ih3⟩ := summarize_spec rest (idx + 1)
    rcases hk : headKV item with ⟨a, v⟩
    cases v with
    | none =>
      refine ⟨?_, ?_, ?_⟩ <;>
        simp [summarizeItems, hk, List.filter_cons, List.enumFrom, ih1, ih2, ih3]
    | some r =>
      by_cases he : r.error.isSome
      · refine ⟨?_, ?_, ?_⟩ <;>
          simp [summarizeItems, hk, he, List.filter_cons, List.enumFrom,
            bulkFailureRecord, ih1, ih2, ih3] <;> omega
      · refine ⟨?_, ?_, ?_⟩ <;>
          simp [summarizeItems, hk, he, List.filter_cons, List.enumFrom,
            bulkSuccessRecord, ih1, ih2, ih3] <;> omega

/-- C3 (amended): summarization produces exactly one record — in input
order, carrying the item's position — for every response item whose
single action key maps to a truthy result object, and
successCount + failureCount equals the number of such items; items whose
action key maps to a null or missing result are skipped entirely, so
with such items the totals fall short of the operation count. -/
theorem C3_bulk_summarize_amended :
    ∀ (items : List BulkItem),
      (summarizeItems 0 items).actionResults.length
          = (items.filter (fun it => (headKV it).2.isSome)).length
      ∧ (summarizeItems 0 items).successes + (summarizeItems 0 items).failures
          = (items.filter (fun it => (headKV it).2.isSome)).length
      ∧ (summarizeItems 0 items).actionResults.map BulkActionRecord.operation
          = ((items.enum).filter (fun p => (headKV p.2).2.isSome)).map Prod.fst :=
  fun items => summarize_spec items 0

/-- C3 counterexample: one logical operation and a store response of the
same item count whose single item maps its action key to null — the
summarizer records nothing, so successCount + failureCount is 0, not the
operation count 1. -/
theorem C3_bulk_summarize_counterexample :
    ([[("index", (none : Option BulkItemResult))]] : List BulkItem).length
        = ([{ action := BulkAction.index, index := "a",
              document := some (Json.obj []) }] : List BulkOp).length
    ∧ (summarizeItems 0 [[("index", (none : Option BulkItemResult))]]).successes
        + (summarizeItems 0 [[("index", (none : Option BulkItemResult))]]).failures = 0
    ∧ (summarizeItems 0 [[("index", (none : Option BulkItemResult))]]).actionResults.length = 0
    ∧ (0 : Nat) ≠ ([{ action := BulkAction.index, index := "a",
                      document := some (Json.obj []) }] : List BulkOp).length := by
  exact ⟨rfl, rfl, rfl, by decide⟩

/-- C8 counterexample: on the update_by_query path a failure with an
absent id renders as `undefined` (raw interpolation), not as the claimed
`unknown`. -/
theorem C8_failure_line_counterexample :
    ubqFailureLine 0 { id := none, cause := some { reason := some "conflict" } }
        = "\n1. ID: undefined, Reason: conflict"
    ∧ ubqFailureLine 0 { id := none, cause := some { reason := some "conflict" } }
        ≠ "\n1. ID: unknown, Reason: conflict" := by
  exact ⟨rfl, by decide⟩

/-- C8 (amended): delete_by_query failure lines substitute `unknown` for
an absent id and `Unknown` for an absent cause.reason; update_by_query
lines share the `Unknown` reason fallback but interpolate the id raw, so
an absent id renders as `undefined`. -/
theorem C8_failure_line_amended :
    ∀ (i : Nat) (c : Option FailureCause) (s : String),
      dbqFailureLine i { id := none, cause := c }
          = "\n" ++ toString (i + 1) ++ ". ID: " ++ "unknown" ++ ", Reason: "
            ++ jsOrStr (c.bind FailureCause.reason) "Unknown"
      ∧ ubqFailureLine i { id := none, cause := c }
          = "\n" ++ toString (i + 1) ++ ". ID: " ++ "undefined" ++ ", Reason: "
            ++ jsOrStr (c.bind FailureCause.reason) "Unknown"
      ∧ ubqFailureLine i { id := some s, cause := none }
          = "\n" ++ toString (i + 1) ++ ". ID: " ++ s ++ ", Reason: " ++ "Unknown"
      ∧ dbqFailureLine i { id := some s, cause := none }
          = "\n" ++ toString (i + 1) ++ ". ID: " ++ jsOrStr (some s) "unknown"
            ++ ", Reason: " ++ "Unknown" := by
  intro i c s
  exact ⟨rfl, rfl, rfl, rfl⟩

/-- C1 (amended): every handler catches every failure of its try block
(the store call's error; for bulk also the operation-validation error,
which takes precedence) and returns a single-fragment envelope wrapping
the message.  Thirteen of the sixteen tools use the prefix `Error: `;
add_document, update_document and delete_document use
`Error adding document: `, `Error updating document: ` and
`Error deleting document: `.  No handler propagates an exception: each
is a total function into `ResponseContent`. -/
theorem C1_handler_error_wrapping :
    ∀ (indexPattern indexName docId m : String) (optIdx optName : Option String)
      (document queryJson : Json) (queryBody : List (String × Json))
      (script : UbqScript) (conflicts : Option String) (maxDocs : Option Nat)
      (refresh : Bool) (settings mappings : Option Json) (query : Option Json)
      (operations : List BulkOp) (pipeline : Option String),
      list_indices_handler indexPattern (Except.error m) = errEnvelope m
      ∧ get_mappings_handler indexName (Except.error m) = errEnvelope m
      ∧ search_handler indexName queryBody (Except.error m) = errEnvelope m
      ∧ get_cluster_health_handler (Except.error m) = errEnvelope m
      ∧ get_shards_handler optIdx (Except.error m) = errEnvelope m
      ∧ add_document_handler indexName optIdx document (fun _ => Except.error m)
          = { content := [{ text := "Error adding document: " ++ m }] }
      ∧ update_document_handler indexName docId document (Except.error m)
          = { content := [{ text := "Error updating document: " ++ m }] }
      ∧ delete_document_handler indexName docId (Except.error m)
          = { content := [{ text := "Error deleting document: " ++ m }] }
      ∧ update_by_query_handler indexName queryJson script conflicts maxDocs refresh
          (fun _ => Except.error m) = errEnvelope m
      ∧ delete_by_query_handler indexName queryJson conflicts maxDocs refresh
          (fun _ => Except.error m) = errEnvelope m
      ∧ bulk_handler operations pipeline (fun _ => Except.error m)
          = errEnvelope (match validateOperations operations with
              | Except.ok _ => m
              | Except.error v => v)
      ∧ create_index_handler indexName settings mappings (Except.error m) = errEnvelope m
      ∧ delete_index_handler indexName (Except.error m) = errEnvelope m
      ∧ count_documents_handler indexName query (Except.error m) = errEnvelope m
      ∧ get_templates_handler optName (Except.error m) = errEnvelope m
      ∧ get_aliases_handler optName (Except.error m) = errEnvelope m := by
  intro indexPattern indexName docId m optIdx optName document queryJson queryBody
    script conflicts maxDocs refresh settings mappings query operations pipeline
  refine ⟨rfl, rfl, rfl, rfl, rfl, rfl, rfl, rfl, rfl, rfl, ?_, rfl, rfl, rfl, rfl, rfl⟩
  cases hv : validateOperations operations with
  | ok u => simp [bulk_handler, bulkHandlerCore, hv, Bind.bind, Except.bind]
  | error v => simp [bulk_handler, bulkHandlerCore, hv, Bind.bind, Except.bind]

/-- C1 counterexample: the add_document handler wraps a store failure as
`Error adding document: <message>`, which is not of the claimed form
`Error: <message>`. -/
theorem C1_handler_error_wrapping_counterexample :
    add_document_handler "products" none (Json.obj []) (fun _ => Except.error "boom")
        = { content := [{ text := "Error adding document: boom" }] }
    ∧ ("Error adding document: boom" : String) ≠ "Error: " ++ "boom" := by
  exact ⟨rfl, by decide⟩
